import Mathlib

/-!
A shallow embedding of the filtering and pagination core of `src/app.py`
(CharityCard.World, a Streamlit charity-directory viewer), together with
theorems settling the specified properties of that core: the filter
pipeline (free-text search, cause filter, country filter), the
pagination arithmetic, and the per-column load pipeline.
-/

namespace CharityApp

/-- A row of the loaded table: an association list from column names to cell
values.  After `load_data` every cell of an existing column holds a string
(missing values having been filled with the sentinel), which is all the
filtering code observes. -/
abbrev Row := List (String × String)

/-- The in-memory table: its column names and its rows, in order.
Models the pandas `DataFrame` the app manipulates. -/
structure DataFrame where
  cols : List String
  rows : List Row
deriving DecidableEq

/-- Model of `row.get(col, "N/A")` — the cell of `row` in column `col`,
with the sentinel as default for an absent attribute (app.py lines 117–123 read rows
this way; the filter code only reads columns it has checked to exist). -/
def rowGet (row : Row) (col : String) : String := (row.lookup col).getD "N/A"

/-- Python's `str.lower()`, as the character list of the string with ASCII
case folding (the fragment the data exercises). -/
def toLowerChars (s : String) : List Char := s.data.map Char.toLower

/-- One pattern character of the regular-expression fragment that
`pandas.Series.str.contains` (default `regex=True`, hence `re.search`)
applies to the search term: `.` matches any character, any other character
matches itself.  This models `re` on patterns built from literal characters
and `.`, the fragment exercised in this development. -/
def patCharMatches (p c : Char) : Bool := p = '.' || p = c

/-- Does the pattern match a leading segment of the string?  (`re.match` of
the dot/literal fragment.) -/
def matchHere : List Char → List Char → Bool
  | [], _ => true
  | _ :: _, [] => false
  | p :: ps, c :: cs => patCharMatches p c && matchHere ps cs

/-- Model of `re.search` on the dot/literal fragment: does the pattern match starting
at some position of the string?  This is the containment test
`Series.str.contains` performs with its default `regex=True`
(app.py line 85). -/
def regexSearch (pat : List Char) : List Char → Bool
  | [] => matchHere pat []
  | c :: cs => matchHere pat (c :: cs) || regexSearch pat cs

/-- Literal-prefix test: the specification's notion of matching at the front
of a string, where every pattern character stands for itself. -/
def litHere : List Char → List Char → Bool
  | [], _ => true
  | _ :: _, [] => false
  | p :: ps, c :: cs => p = c && litHere ps cs

/-- Literal-substring test: the specification's "the term is a substring of
the value". -/
def litContains (pat : List Char) : List Char → Bool
  | [] => litHere pat []
  | c :: cs => litHere pat (c :: cs) || litContains pat cs

/-- The characters `re` treats specially; a term avoiding all of them is
interpreted purely literally by the regex engine. -/
def isRegexMetachar (c : Char) : Bool :=
  c ∈ ['.', '^', '$', '*', '+', '?', '\x7b', '\x7d', '[', ']', '\\', '|', '(', ')']

/-- app.py line 80: the searchable columns that actually exist in the
table. -/
def search_cols (df : DataFrame) : List String :=
  ["Organisation_Name", "Short_Description", "Category_Focus"].filter
    (fun c => df.cols.contains c)

/-- app.py lines 81–87: when the search box is non-empty and at least one
searchable column exists, keep the rows in which the lowercased term occurs
(as a regex, the `str.contains` default) in the lowercased value of some
searchable column; otherwise leave the table unchanged. -/
def textFilter (df : DataFrame) (search_term : String) : DataFrame :=
  if search_term ≠ "" ∧ search_cols df ≠ [] then
    ⟨df.cols, df.rows.filter (fun row =>
      (search_cols df).any (fun c =>
        regexSearch (toLowerChars search_term) (toLowerChars (rowGet row c))))⟩
  else df

/-- app.py lines 90–91: when causes are selected and the `Category` column
exists, keep the rows whose category is one of the selected causes
(`Series.isin`, exact string equality); otherwise leave the table
unchanged. -/
def causeFilter (df : DataFrame) (selected_causes : List String) : DataFrame :=
  if selected_causes ≠ [] ∧ df.cols.contains "Category" then
    ⟨df.cols, df.rows.filter (fun row =>
      selected_causes.contains (rowGet row "Category"))⟩
  else df

/-- app.py lines 94–95: the identical policy over the `Country` column. -/
def countryFilter (df : DataFrame) (selected_countries : List String) : DataFrame :=
  if selected_countries ≠ [] ∧ df.cols.contains "Country" then
    ⟨df.cols, df.rows.filter (fun row =>
      selected_countries.contains (rowGet row "Country"))⟩
  else df

/-- app.py lines 77–95: `df_filtered`, the view obtained from the loaded
table by applying the text search, the cause filter and the country filter
in sequence (`df.copy()` is the identity at the level of values). -/
def df_filtered (df : DataFrame) (search_term : String)
    (selected_causes selected_countries : List String) : DataFrame :=
  countryFilter (causeFilter (textFilter df search_term) selected_causes)
    selected_countries

/-- The free-text predicate as a guarded point test: the test a row must
pass at the text-search stage of the pipeline (`true` when that stage is
inactive). -/
def textPred (df : DataFrame) (search_term : String) (row : Row) : Bool :=
  if search_term ≠ "" ∧ search_cols df ≠ [] then
    (search_cols df).any (fun c =>
      regexSearch (toLowerChars search_term) (toLowerChars (rowGet row c)))
  else true

/-- The cause predicate as a guarded point test (`true` when the cause
stage is inactive). -/
def causePred (df : DataFrame) (selected_causes : List String) (row : Row) : Bool :=
  if selected_causes ≠ [] ∧ df.cols.contains "Category" then
    selected_causes.contains (rowGet row "Category")
  else true

/-- The country predicate as a guarded point test (`true` when the country
stage is inactive). -/
def countryPred (df : DataFrame) (selected_countries : List String) (row : Row) : Bool :=
  if selected_countries ≠ [] ∧ df.cols.contains "Country" then
    selected_countries.contains (rowGet row "Country")
  else true

/-- app.py line 102. -/
def items_per_page : Nat := 10

/-- app.py line 103: `max(1, math.ceil(total_orgs / items_per_page))`, with
the integer ceiling `(n + k - 1) / k` standing for `math.ceil` on exact
(non-negative integer) arguments; the theorem for claim C6 below proves
this rendering equal to `max 1` of the rational ceiling.  Generalised over
the page size, which the app fixes at `items_per_page`. -/
def total_pages (total_orgs ipp : Nat) : Nat :=
  max 1 ((total_orgs + ipp - 1) / ipp)

/-- app.py lines 106–108: `df_filtered.iloc[start_idx:end_idx]` with
`start_idx = (page - 1) * ipp` and `end_idx = start_idx + ipp` — the slice
of the view for a (1-based) page number. -/
def page_data {α : Type} (view : List α) (ipp page : Nat) : List α :=
  (view.drop ((page - 1) * ipp)).take ipp

/-- The paginator's error taxonomy named by the specification. -/
inductive PgError
  | outOfRange
  | invalidConfiguration
deriving DecidableEq

/-- The pagination step viewed as an operation that could fail: the source
computes the slice unconditionally (the page-number widget on line 104
clamps `page` to `[1, total_pages]`, and `iloc` slicing is total), so every
invocation succeeds with the slice and no error value is ever produced. -/
def paginate {α : Type} (view : List α) (ipp page : Nat) : Except PgError (List α) :=
  Except.ok (page_data view ipp page)

/-- A cell value as pandas holds it between `read_csv` and display: missing
(`NaN`), an integer (an int64 column), a float (a float64 column, rendered
with a trailing `.0`), or a string (an object column). -/
inductive PdValue
  | na
  | int (n : Int)
  | float (n : Int)
  | str (s : String)
deriving DecidableEq

/-- The cell texts `pandas.read_csv` reads as missing by default (its
documented default `na_values` list, plus the empty field). -/
def isNAText (s : String) : Bool :=
  s ∈ ["", "#N/A", "#N/A N/A", "#NA", "-1.#IND", "-1.#QNAN", "-NaN", "-nan",
       "1.#IND", "1.#QNAN", "<NA>", "N/A", "NA", "NULL", "NaN", "None",
       "n/a", "nan", "null"]

/-- Does pandas read this cell text as an integer literal?  An optional
sign followed by one or more decimal digits. -/
def isIntLit (s : String) : Bool :=
  match s.data with
  | [] => false
  | c :: cs =>
    if c = '+' || c = '-' then !cs.isEmpty && cs.all Char.isDigit
    else (c :: cs).all Char.isDigit

/-- The number denoted by a decimal digit string. -/
def digitsToNat (l : List Char) : Nat :=
  l.foldl (fun n c => 10 * n + (c.toNat - 48)) 0

/-- The integer denoted by an integer literal (optional sign, digits). -/
def intLitVal (s : String) : Int :=
  match s.data with
  | '-' :: cs => -(digitsToNat cs : Int)
  | '+' :: cs => (digitsToNat cs : Int)
  | cs => (digitsToNat cs : Int)

/-- A character that can occur in a cell text pandas might read as a
number (digits, signs, decimal point, exponent letter, underscore, or
surrounding blanks).  Over-approximate on purpose: a cell containing any
character outside this set can never be parsed numerically. -/
def maybeNumericChar (c : Char) : Bool :=
  c.isDigit || c = '+' || c = '-' || c = '.' || c = 'e' || c = 'E'
    || c = '_' || c = ' ' || c = '\t'

/-- The non-numeric cell texts the reader still converts: boolean literals
and the infinity words, compared case-insensitively (again a deliberate
over-approximation of pandas' case-sensitive sets). -/
def boolOrInfWord (s : String) : Bool :=
  (toLowerChars s).asString ∈
    ["true", "false", "inf", "+inf", "-inf", "infinity", "+infinity",
     "-infinity"]

/-- A cell text `pandas.read_csv` can only treat as text: not a
missing-value marker, not a boolean or infinity word, and containing at
least one character that can appear in no numeric literal.  A column
containing such a cell defeats every column-level conversion and gets
object dtype, so all of its non-missing cells keep their source text
verbatim. -/
def isPlainText (s : String) : Bool :=
  !isNAText s && (!boolOrInfWord s && !s.data.all maybeNumericChar)

/-- Model of `pandas.read_csv` type inference for one column of raw cell
texts.  A cell equal to one of the default missing-value markers reads as
`NaN`.  If every remaining cell is an integer literal the column is
numeric — int64 when no cell is missing, float64 otherwise — and each
literal is parsed as a number.  Any other column is kept textual here;
pandas agrees whenever some cell is plainly textual (`isPlainText`), which
is the hypothesis under which the load theorems below assert text
preservation.  Columns made only of other numeric-looking shapes (floats,
scientific notation) are outside this fragment, and no theorem asserts the
exact text of their cell values. -/
def read_csv_column (cells : List String) : List PdValue :=
  let allInt := (cells.filter (fun s => !isNAText s)).all isIntLit
  let hasNA := cells.any isNAText
  cells.map (fun raw =>
    if isNAText raw then PdValue.na
    else if allInt then
      (if hasNA then PdValue.float (intLitVal raw)
       else PdValue.int (intLitVal raw))
    else PdValue.str raw)

/-- app.py line 33: `df.fillna("N/A")` on one cell — a missing value
becomes the sentinel string. -/
def fillna (v : PdValue) : PdValue :=
  match v with
  | PdValue.na => PdValue.str "N/A"
  | v => v

/-- How pandas renders a cell when a column is converted with `astype(str)`:
numbers by their decimal form (float64 with a trailing `.0`), strings
unchanged. -/
def pdRender : PdValue → String
  | PdValue.na => "nan"
  | PdValue.int n => toString n
  | PdValue.float n => toString n ++ ".0"
  | PdValue.str s => s

/-- app.py lines 36–39: the columns converted with `astype(str)`. -/
def string_cols : List String :=
  ["Organisation_Name", "Short_Description", "Website_URL",
   "Contact_Name", "Phone", "Email", "Category_Focus"]

/-- app.py lines 33–39 applied to one column of raw cell texts: parse
(`read_csv`), fill missing values with the sentinel (`fillna`), and convert
the listed columns to strings (`astype(str)`). -/
def load_column (col : String) (cells : List String) : List PdValue :=
  let filled := (read_csv_column cells).map fillna
  if string_cols.contains col then
    filled.map (fun v => PdValue.str (pdRender v))
  else filled

/-! ### Concrete tables used by scenarios, counterexamples and witnesses -/

/-- A one-row table whose description contains "clean water". -/
def dfWater : DataFrame :=
  ⟨["Organisation_Name", "Short_Description", "Category_Focus"],
   [[("Organisation_Name", "Aqua Aid"),
     ("Short_Description", "Provides clean water to villages"),
     ("Category_Focus", "Water access")]]⟩

/-- A one-row table whose name is "abc" and whose other searchable values
avoid the letters of "abc" altogether. -/
def dfAbc : DataFrame :=
  ⟨["Organisation_Name", "Short_Description", "Category_Focus"],
   [[("Organisation_Name", "abc"),
     ("Short_Description", "xyz"),
     ("Category_Focus", "qrs")]]⟩

/-- A two-row table with categories "Education" and "Health". -/
def dfCat : DataFrame :=
  ⟨["Category"],
   [[("Category", "Education")], [("Category", "Health")]]⟩

/-- A one-row table with no `Category`, no `Country` and no searchable
column. -/
def dfNoCat : DataFrame :=
  ⟨["Email"], [[("Email", "info@acme.org")]]⟩

/-! ### Structural lemmas about the filter pipeline -/

lemma textFilter_cols (df : DataFrame) (t : String) :
    (textFilter df t).cols = df.cols := by
  unfold textFilter; split <;> rfl

lemma causeFilter_cols (df : DataFrame) (cs : List String) :
    (causeFilter df cs).cols = df.cols := by
  unfold causeFilter; split <;> rfl

lemma countryFilter_cols (df : DataFrame) (ks : List String) :
    (countryFilter df ks).cols = df.cols := by
  unfold countryFilter; split <;> rfl

lemma textFilter_rows (df : DataFrame) (t : String) :
    (textFilter df t).rows = df.rows.filter (textPred df t) := by
  unfold textFilter textPred
  split
  · next h => simp only [if_pos h]
  · next h => simp only [if_neg h, List.filter_true]

lemma causeFilter_rows (df : DataFrame) (cs : List String) :
    (causeFilter df cs).rows = df.rows.filter (causePred df cs) := by
  unfold causeFilter causePred
  split
  · next h => simp only [if_pos h]
  · next h => simp only [if_neg h, List.filter_true]

lemma countryFilter_rows (df : DataFrame) (ks : List String) :
    (countryFilter df ks).rows = df.rows.filter (countryPred df ks) := by
  unfold countryFilter countryPred
  split
  · next h => simp only [if_pos h]
  · next h => simp only [if_neg h, List.filter_true]

lemma search_cols_eq_of_cols {df₁ df₂ : DataFrame} (h : df₁.cols = df₂.cols) :
    search_cols df₁ = search_cols df₂ := by
  unfold search_cols; rw [h]

lemma causePred_eq_of_cols {df₁ df₂ : DataFrame} (cs : List String)
    (h : df₁.cols = df₂.cols) : causePred df₁ cs = causePred df₂ cs := by
  funext row; unfold causePred; rw [h]

lemma countryPred_eq_of_cols {df₁ df₂ : DataFrame} (ks : List String)
    (h : df₁.cols = df₂.cols) : countryPred df₁ ks = countryPred df₂ ks := by
  funext row; unfold countryPred; rw [h]

/-- The three sequential filter stages of `df_filtered` amount to a single
pass keeping exactly the rows on which the three guarded predicates are
all true: the active predicates are combined with logical AND. -/
lemma df_filtered_rows (df : DataFrame) (t : String) (cs ks : List String) :
    (df_filtered df t cs ks).rows
      = df.rows.filter (fun r =>
          textPred df t r && (causePred df cs r && countryPred df ks r)) := by
  unfold df_filtered
  have h1 : (causeFilter (textFilter df t) cs).cols = df.cols := by
    rw [causeFilter_cols, textFilter_cols]
  rw [countryFilter_rows, causeFilter_rows, textFilter_rows,
    countryPred_eq_of_cols ks h1,
    causePred_eq_of_cols cs (textFilter_cols df t),
    List.filter_filter, List.filter_filter]
  apply List.filter_congr
  intro r _
  cases textPred df t r <;> cases causePred df cs r <;>
    cases countryPred df ks r <;> rfl

lemma df_filtered_cols (df : DataFrame) (t : String) (cs ks : List String) :
    (df_filtered df t cs ks).cols = df.cols := by
  unfold df_filtered
  rw [countryFilter_cols, causeFilter_cols, textFilter_cols]

/-! ### Regex-fragment versus literal substring -/

lemma matchHere_eq_litHere (pat : List Char) (hdot : '.' ∉ pat) :
    ∀ s : List Char, matchHere pat s = litHere pat s := by
  induction pat with
  | nil => intro s; rfl
  | cons p ps ih =>
    intro s
    cases s with
    | nil => rfl
    | cons c cs =>
      have hp : p ≠ '.' := fun h => hdot (h ▸ List.mem_cons_self p ps)
      have hps : '.' ∉ ps := fun h => hdot (List.mem_cons_of_mem p h)
      unfold matchHere patCharMatches
      rw [ih hps]
      have : (p = '.' : Bool) = false := by
        simp only [decide_eq_false_iff_not]; exact hp
      rw [this, Bool.false_or]
      rfl

lemma regexSearch_eq_litContains (pat : List Char) (hdot : '.' ∉ pat) :
    ∀ s : List Char, regexSearch pat s = litContains pat s := by
  intro s
  induction s with
  | nil => unfold regexSearch litContains; rw [matchHere_eq_litHere pat hdot]
  | cons c cs ih =>
    unfold regexSearch litContains
    rw [matchHere_eq_litHere pat hdot, ih]

lemma litHere_iff (pat : List Char) :
    ∀ s : List Char, litHere pat s = true ↔ pat <+: s := by
  induction pat with
  | nil =>
    intro s
    simp only [litHere, List.nil_prefix]
  | cons p ps ih =>
    intro s
    cases s with
    | nil =>
      simp only [litHere, List.prefix_nil]
      constructor
      · intro h; cases h
      · intro h; cases h
    | cons c cs =>
      unfold litHere
      rw [List.cons_prefix_cons, Bool.and_eq_true, decide_eq_true_eq, ih cs]

lemma litContains_iff (pat : List Char) :
    ∀ s : List Char, litContains pat s = true ↔ pat <:+: s := by
  intro s
  induction s with
  | nil =>
    unfold litContains
    rw [litHere_iff, List.infix_nil, List.prefix_nil]
  | cons c cs ih =>
    unfold litContains
    rw [Bool.or_eq_true, litHere_iff, ih, List.infix_cons_iff]

lemma litContains_eq_decide (pat s : List Char) :
    litContains pat s = decide (pat <:+: s) := by
  rcases h : litContains pat s with _ | _
  · symm
    simp only [decide_eq_false_iff_not]
    intro hc
    rw [(litContains_iff pat s).mpr hc] at h
    cases h
  · symm
    simp only [decide_eq_true_eq]
    exact (litContains_iff pat s).mp h

/-! ### Pagination arithmetic -/

/-- The integer-ceiling divide is the adjoint of multiplication: the page
count `(n + k - 1) / k` is at most `m` exactly when `m` pages of size `k`
hold `n` items. -/
lemma ceil_div_le_iff {n k m : Nat} (hk : 0 < k) :
    (n + k - 1) / k ≤ m ↔ n ≤ m * k := by
  rw [Nat.div_le_iff_le_mul_add_pred hk, Nat.mul_comm m k]
  generalize k * m = t
  omega

/-- Every item of the view lands on one of the `total_pages` pages. -/
lemma le_total_pages_mul (n k : Nat) (hk : 0 < k) :
    n ≤ total_pages n k * k := by
  have h1 : n ≤ ((n + k - 1) / k) * k := (ceil_div_le_iff hk).mp le_rfl
  have h2 : (n + k - 1) / k ≤ total_pages n k := le_max_right _ _
  exact le_trans h1 (Nat.mul_le_mul_right k h2)

/-- The integer rendering of `math.ceil(n / k)` agrees with the rational
ceiling. -/
lemma ceil_div_eq_ceil (n k : Nat) (hk : 0 < k) :
    (n + k - 1) / k = ⌈(n : ℚ) / (k : ℚ)⌉₊ := by
  have hk' : (0 : ℚ) < (k : ℚ) := by exact_mod_cast hk
  apply le_antisymm
  · rw [ceil_div_le_iff hk]
    have h1 : (n : ℚ) / (k : ℚ) ≤ (⌈(n : ℚ) / (k : ℚ)⌉₊ : ℚ) := Nat.le_ceil _
    rw [div_le_iff₀ hk'] at h1
    exact_mod_cast h1
  · rw [Nat.ceil_le, div_le_iff₀ hk']
    exact_mod_cast (ceil_div_le_iff hk).mp le_rfl

/-- Concatenating the first `m` pages of a view recovers its first
`m * ipp` elements. -/
lemma flatten_pages {α : Type} (view : List α) (ipp : Nat) :
    ∀ m : Nat,
      ((List.range m).map (fun i => page_data view ipp (i + 1))).flatten
        = view.take (m * ipp) := by
  intro m
  induction m with
  | zero => simp
  | succ m ih =>
    rw [List.range_succ, List.map_append, List.flatten_append, ih]
    show view.take (m * ipp) ++ List.flatten [page_data view ipp (m + 1)]
      = view.take ((m + 1) * ipp)
    have hpage : List.flatten [page_data view ipp (m + 1)]
        = (view.drop (m * ipp)).take ipp := by
      simp [page_data]
    rw [hpage, List.take_drop]
    have htake : view.take (m * ipp)
        = (view.take (m * ipp + ipp)).take (m * ipp) := by
      rw [List.take_take, Nat.min_def]
      split
      · rfl
      · omega
    rw [htake, List.take_append_drop, Nat.succ_mul]

/-! ### The claims -/

/-- C4.  Applying the filter with the empty query — empty free-text term,
empty selected-causes list, empty selected-countries list — returns the
dataset unchanged: the same records in the same order. -/
theorem c4_empty_query_identity (df : DataFrame) :
    df_filtered df "" [] [] = df := by
  unfold df_filtered textFilter causeFilter countryFilter
  simp

/-- C5.  For every dataset and query, the filtered view is an
order-preserving subsequence of the dataset's rows: every kept record
occurs in the dataset and relative order is preserved
(`List.Sublist` is exactly that notion). -/
theorem c5_filtered_sublist (df : DataFrame) (t : String)
    (cs ks : List String) :
    (df_filtered df t cs ks).rows.Sublist df.rows := by
  rw [df_filtered_rows]
  exact List.filter_sublist df.rows

/-- C3.  When the selected-causes list is non-empty and the dataset has a
`Category` column, a record is kept only if its category is an exact-string
member of the selected list; and the three guarded predicates (free text,
cause, country) are combined with logical AND in a single pass. -/
theorem c3_cause_membership_and_conjunction (df : DataFrame) (t : String)
    (cs ks : List String)
    (h1 : "Category" ∈ df.cols) (h2 : cs ≠ []) :
    (∀ r ∈ (df_filtered df t cs ks).rows, rowGet r "Category" ∈ cs)
    ∧ (df_filtered df t cs ks).rows
        = df.rows.filter (fun r =>
            textPred df t r && (causePred df cs r && countryPred df ks r)) := by
  refine ⟨?_, df_filtered_rows df t cs ks⟩
  intro r hr
  rw [df_filtered_rows] at hr
  have hpred := List.of_mem_filter hr
  rw [Bool.and_eq_true, Bool.and_eq_true] at hpred
  have hcause := hpred.2.1
  unfold causePred at hcause
  rw [if_pos ⟨h2, by rw [List.contains_iff_exists_mem_beq]; exact ⟨"Category", h1, by simp⟩⟩] at hcause
  rw [List.contains_iff_exists_mem_beq] at hcause
  obtain ⟨a, ha, hbeq⟩ := hcause
  have : rowGet r "Category" = a := by simpa using hbeq
  rw [this]; exact ha

/-- Witness for C3 at the specification's scenario: with categories
"Education" and "Health" present, selecting only "Health" keeps exactly the
"Health" record (the "Education" record is excluded), and selecting both
keeps both. -/
theorem c3_cause_membership_and_conjunction_witness :
    ("Category" ∈ dfCat.cols ∧ (["Health"] : List String) ≠ [])
    ∧ ((∀ r ∈ (df_filtered dfCat "" ["Health"] []).rows,
          rowGet r "Category" ∈ (["Health"] : List String))
        ∧ (df_filtered dfCat "" ["Health"] []).rows
            = dfCat.rows.filter (fun r =>
                textPred dfCat "" r
                  && (causePred dfCat ["Health"] r
                    && countryPred dfCat ([] : List String) r)))
    ∧ (df_filtered dfCat "" ["Health"] []).rows = [[("Category", "Health")]]
    ∧ (df_filtered dfCat "" ["Education", "Health"] []).rows = dfCat.rows := by
  refine ⟨⟨by decide, by decide⟩, ?_, by decide, by decide⟩
  exact c3_cause_membership_and_conjunction dfCat "" ["Health"] []
    (by decide) (by decide)

/-- C1.  For a fixed positive page size, concatenating the page slices for
page numbers `1 .. total_pages` reconstructs the filtered view exactly —
no record duplicated, none omitted; and a view of 25 records at the app's
page size 10 has 3 pages, page 3 being exactly the 5 records at offsets
20–24. -/
theorem c1_pagination_coverage {α : Type} (view : List α) (ipp : Nat)
    (h : 0 < ipp) :
    (((List.range (total_pages view.length ipp)).map
        (fun i => page_data view ipp (i + 1))).flatten = view)
    ∧ (view.length = 25 →
        total_pages view.length items_per_page = 3
        ∧ page_data view items_per_page 3 = view.drop 20
        ∧ (page_data view items_per_page 3).length = 5) := by
  constructor
  · rw [flatten_pages view ipp (total_pages view.length ipp)]
    exact List.take_of_length_le (le_total_pages_mul view.length ipp h)
  · intro h25
    refine ⟨by rw [h25]; rfl, ?_, ?_⟩
    · show (view.drop ((3 - 1) * items_per_page)).take items_per_page
        = view.drop 20
      have h20 : (3 - 1) * items_per_page = 20 := rfl
      rw [h20]
      apply List.take_of_length_le
      rw [List.length_drop, h25]
      decide
    · show ((view.drop ((3 - 1) * items_per_page)).take items_per_page).length = 5
      rw [List.length_take, List.length_drop, h25]
      decide

/-- Witness for C1 at a concrete 25-element view and page size 10. -/
theorem c1_pagination_coverage_witness :
    0 < 10
    ∧ ((((List.range (total_pages (List.range 25).length 10)).map
          (fun i => page_data (List.range 25) 10 (i + 1))).flatten
            = List.range 25)
        ∧ ((List.range 25).length = 25 →
            total_pages (List.range 25).length items_per_page = 3
            ∧ page_data (List.range 25) items_per_page 3
                = (List.range 25).drop 20
            ∧ (page_data (List.range 25) items_per_page 3).length = 5)) :=
  ⟨by decide, c1_pagination_coverage (List.range 25) 10 (by decide)⟩

/-- C2 (counterexample).  The free-text filter is not the literal-substring
predicate the claim states: for the term "a.c" it keeps the record named
"abc" although no searchable attribute contains "a.c" as a literal
substring. -/
theorem c2_counterexample_regex_not_substring :
    (textFilter dfAbc "a.c").rows = dfAbc.rows
    ∧ dfAbc.rows ≠ []
    ∧ dfAbc.rows.filter (fun r =>
        (search_cols dfAbc).any (fun c =>
          decide (toLowerChars "a.c" <:+: toLowerChars (rowGet r c)))) = [] := by
  refine ⟨by decide, by decide, by decide⟩

/-- C2 (amended).  For a non-empty search term none of whose (lowercased)
characters is a regex metacharacter, the free-text filter keeps a record
iff the lowercased term is a literal substring of the lowercased value of
at least one searchable attribute; and searching for "WATER" keeps the
record whose description contains "clean water". -/
theorem c2_amended_substring_for_literal_terms (df : DataFrame)
    (term : String) (h1 : term ≠ "") (h2 : search_cols df ≠ [])
    (h3 : ∀ c ∈ toLowerChars term, isRegexMetachar c = false) :
    (textFilter df term).rows
      = df.rows.filter (fun r =>
          (search_cols df).any (fun c =>
            decide (toLowerChars term <:+: toLowerChars (rowGet r c))))
    ∧ (textFilter dfWater "WATER").rows = dfWater.rows := by
  have hdot : '.' ∉ toLowerChars term := by
    intro hm
    exact absurd (h3 '.' hm) (by decide)
  constructor
  · unfold textFilter
    rw [if_pos ⟨h1, h2⟩]
    apply List.filter_congr
    intro row _
    apply congrArg
    funext c
    rw [regexSearch_eq_litContains (toLowerChars term) hdot,
      litContains_eq_decide]
  · decide

/-- Witness for C2 (amended) at the "WATER" / "clean water" scenario. -/
theorem c2_amended_substring_for_literal_terms_witness :
    (("WATER" : String) ≠ ""
      ∧ search_cols dfWater ≠ []
      ∧ ∀ c ∈ toLowerChars "WATER", isRegexMetachar c = false)
    ∧ ((textFilter dfWater "WATER").rows
        = dfWater.rows.filter (fun r =>
            (search_cols dfWater).any (fun c =>
              decide (toLowerChars "WATER" <:+: toLowerChars (rowGet r c))))
      ∧ (textFilter dfWater "WATER").rows = dfWater.rows) :=
  ⟨⟨by decide, by decide, by decide⟩,
   c2_amended_substring_for_literal_terms dfWater "WATER"
     (by decide) (by decide) (by decide)⟩

/-- C10.  The term is passed to a regex-based containment test, not a
literal substring test: "a.c" contains a regex metacharacter, the filter
keeps the record named "abc", yet no searchable attribute of any record
contains "a.c" as a literal substring. -/
theorem c10_regex_based_containment :
    "a.c".data.any isRegexMetachar = true
    ∧ (textFilter dfAbc "a.c").rows = dfAbc.rows
    ∧ dfAbc.rows ≠ []
    ∧ dfAbc.rows.filter (fun r =>
        (search_cols dfAbc).any (fun c =>
          litContains (toLowerChars "a.c") (toLowerChars (rowGet r c)))) = [] := by
  refine ⟨by decide, by decide, by decide, by decide⟩

/-- C6.  `total_pages` is `max 1` of the true (rational) ceiling of
`n / pageSize`; an empty view yields one page, and its page 1 is the empty
slice, produced without error. -/
theorem c6_total_pages_ceiling (n ipp : Nat) (h : 0 < ipp) :
    total_pages n ipp = max 1 ⌈(n : ℚ) / (ipp : ℚ)⌉₊
    ∧ total_pages 0 ipp = 1
    ∧ page_data ([] : List Row) ipp 1 = []
    ∧ paginate ([] : List Row) ipp 1 = Except.ok [] := by
  refine ⟨?_, ?_, ?_, ?_⟩
  · unfold total_pages
    rw [ceil_div_eq_ceil n ipp h]
  · unfold total_pages
    rw [Nat.div_eq_of_lt (by omega)]
    simp
  · simp [page_data]
  · simp [paginate, page_data]

/-- Witness for C6 at `n = 25`, page size 10. -/
theorem c6_total_pages_ceiling_witness :
    0 < 10
    ∧ (total_pages 25 10 = max 1 ⌈(25 : ℚ) / (10 : ℚ)⌉₊
        ∧ total_pages 0 10 = 1
        ∧ page_data ([] : List Row) 10 1 = []
        ∧ paginate ([] : List Row) 10 1 = Except.ok []) :=
  ⟨by decide, c6_total_pages_ceiling 25 10 (by decide)⟩

/-- C7 (counterexample).  Page 4 of a 25-record view at page size 10 is
outside `[1, total_pages] = [1, 3]`, yet the pagination step returns a page
(the empty slice) and not an `OutOfRange` error: the source has no failure
path. -/
theorem c7_counterexample_no_out_of_range_failure :
    total_pages (List.range 25).length 10 = 3
    ∧ ¬ (4 ≤ 3)
    ∧ paginate (List.range 25) 10 4 = Except.ok ([] : List Nat)
    ∧ paginate (List.range 25) 10 4 ≠ Except.error PgError.outOfRange := by
  refine ⟨by decide, by decide, by rfl, by simp [paginate]⟩

/-- C7 (amended).  The page-number widget clamps the page to
`[1, total_pages]` before the slice; the slice itself is total: a page
number above `total_pages` yields the empty page successfully, and no page
number ever produces an error. -/
theorem c7_amended_slice_total {α : Type} (view : List α) (ipp p : Nat)
    (h : 0 < ipp) (hp : total_pages view.length ipp < p) :
    paginate view ipp p = Except.ok []
    ∧ ∀ e, paginate view ipp p ≠ Except.error e := by
  have hempty : page_data view ipp p = [] := by
    unfold page_data
    have h2 : total_pages view.length ipp ≤ p - 1 := by omega
    have h1 : view.length ≤ (p - 1) * ipp :=
      le_trans (le_total_pages_mul view.length ipp h)
        (Nat.mul_le_mul_right ipp h2)
    rw [List.drop_eq_nil_of_le h1, List.take_nil]
  constructor
  · unfold paginate
    rw [hempty]
  · intro e
    unfold paginate
    simp

/-- Witness for C7 (amended): page 4 of a 25-record view at page size 10. -/
theorem c7_amended_slice_total_witness :
    (0 < 10 ∧ total_pages (List.range 25).length 10 < 4)
    ∧ (paginate (List.range 25) 10 4 = Except.ok ([] : List Nat)
        ∧ ∀ e, paginate (List.range 25) 10 4 ≠ Except.error e) :=
  ⟨⟨by decide, by decide⟩,
   c7_amended_slice_total (List.range 25) 10 4 (by decide) (by decide)⟩

/-- A plainly textual cell is not an integer literal: integer literals are
built only of signs and digits, all of which are numeric-capable
characters. -/
lemma isPlainText_not_isIntLit (s : String) (hp : isPlainText s = true) :
    isIntLit s = false := by
  unfold isPlainText at hp
  rw [Bool.and_eq_true, Bool.and_eq_true] at hp
  have hnum : s.data.all maybeNumericChar = false := by
    have h := hp.2.2
    rwa [Bool.not_eq_true'] at h
  rcases hint : isIntLit s with _ | _
  · rfl
  · exfalso
    unfold isIntLit at hint
    rcases hd : s.data with _ | ⟨c, cs⟩
    · rw [hd] at hint
      cases hint
    · rw [hd] at hint hnum
      have hint' : (if (c = '+' || c = '-') = true
          then !cs.isEmpty && cs.all Char.isDigit
          else (c :: cs).all Char.isDigit) = true := hint
      by_cases hsign : (c = '+' || c = '-') = true
      · rw [if_pos hsign, Bool.and_eq_true] at hint'
        have hall : (c :: cs).all maybeNumericChar = true := by
          rw [List.all_eq_true]
          intro x hx
          rcases List.mem_cons.mp hx with h | h
          · rw [Bool.or_eq_true] at hsign
            rcases hsign with h' | h'
            · rw [h, of_decide_eq_true h']
              decide
            · rw [h, of_decide_eq_true h']
              decide
          · have hxd : x.isDigit = true := by
              have h2 := hint'.2
              rw [List.all_eq_true] at h2
              exact h2 x h
            unfold maybeNumericChar
            rw [hxd]
            rfl
        rw [hall] at hnum
        cases hnum
      · rw [if_neg hsign] at hint'
        have hall : (c :: cs).all maybeNumericChar = true := by
          rw [List.all_eq_true] at hint' ⊢
          intro x hx
          have hxd := hint' x hx
          unfold maybeNumericChar
          rw [hxd]
          rfl
        rw [hall] at hnum
        cases hnum

/-- C8 (counterexample).  A numeric-looking source value is interpreted as
a number before the string conversion: the phone cell "0123" loads as
"123" (leading zero lost), in a column that also has a missing cell the
value "123" loads as "123.0", and an all-numeric `Category` column — which
the code never converts with `astype(str)` — loads as integers, not
strings. -/
theorem c8_counterexample_numeric_reformat :
    load_column "Phone" ["0123"] = [PdValue.str "123"]
    ∧ load_column "Phone" ["0123"] ≠ [PdValue.str "0123"]
    ∧ load_column "Phone" ["", "123"]
        = [PdValue.str "N/A", PdValue.str "123.0"]
    ∧ load_column "Category" ["7", "8"] = [PdValue.int 7, PdValue.int 8]
    ∧ load_column "Category" ["7", "8"]
        ≠ [PdValue.str "7", PdValue.str "8"] := by
  refine ⟨by decide, by decide, by decide, by decide, by decide⟩

/-- C8 (amended).  The load pipeline keeps the column length; every cell
that is absent (a missing-value marker, the empty field included) becomes
the sentinel string "N/A"; the listed text columns hold only strings after
loading; columns outside that list — `Category` and `Country` among
them — are never string-coerced (no `astype(str)` step is applied to
them); and in any column containing a plainly textual cell (which defeats
numeric inference), every non-missing source cell keeps its string form
unchanged — only columns whose values all look numeric are re-rendered
through number parsing. -/
theorem c8_amended_load (col : String) (cells : List String) :
    (load_column col cells).length = cells.length
    ∧ (∀ (i : Nat) (s : String), cells[i]? = some s → isNAText s = true →
        (load_column col cells)[i]? = some (PdValue.str "N/A"))
    ∧ (string_cols.contains col = true →
        ∀ v ∈ load_column col cells, ∃ t, v = PdValue.str t)
    ∧ (string_cols.contains col = false →
        load_column col cells = (read_csv_column cells).map fillna)
    ∧ (cells.any isPlainText = true →
        ∀ (i : Nat) (s : String), cells[i]? = some s → isNAText s = false →
          (load_column col cells)[i]? = some (PdValue.str s)) := by
  refine ⟨?_, ?_, ?_, ?_, ?_⟩
  · unfold load_column read_csv_column
    split <;> simp
  · intro i s hi hna
    unfold load_column read_csv_column
    split <;>
      simp only [List.getElem?_map, hi, Option.map_some'] <;>
      simp [hna, fillna, pdRender]
  · intro hcol v hv
    unfold load_column at hv
    rw [if_pos hcol] at hv
    obtain ⟨w, _, hw⟩ := List.mem_map.mp hv
    exact ⟨pdRender w, hw.symm⟩
  · intro hcol
    unfold load_column
    rw [hcol]
    simp
  · intro hany i s hi hsna
    obtain ⟨p, hpmem, hp⟩ := List.any_eq_true.mp hany
    have hpint : isIntLit p = false := isPlainText_not_isIntLit p hp
    have hpna : isNAText p = false := by
      unfold isPlainText at hp
      rw [Bool.and_eq_true] at hp
      have h := hp.1
      rwa [Bool.not_eq_true'] at h
    have hallInt : (cells.filter (fun s => !isNAText s)).all isIntLit
        = false := by
      rcases hAll : (cells.filter (fun s => !isNAText s)).all isIntLit
        with _ | _
      · rfl
      · exfalso
        rw [List.all_eq_true] at hAll
        have hpf : p ∈ cells.filter (fun s => !isNAText s) := by
          rw [List.mem_filter]
          exact ⟨hpmem, by rw [hpna]; rfl⟩
        rw [hAll p hpf] at hpint
        cases hpint
    unfold load_column read_csv_column
    split <;>
      simp only [List.getElem?_map, hi, Option.map_some'] <;>
      simp [hsna, hallInt, fillna, pdRender]

/-- Witness for C8 (amended) on the column ["", "abc"]: the empty cell
becomes "N/A", the plainly textual cell "abc" is preserved, and the
unlisted column `Category` goes through no string conversion. -/
theorem c8_amended_load_witness :
    ((["", "abc"] : List String)[0]? = some ""
      ∧ isNAText "" = true
      ∧ (load_column "Phone" ["", "abc"])[0]? = some (PdValue.str "N/A"))
    ∧ ((["", "abc"] : List String).any isPlainText = true
      ∧ isNAText "abc" = false
      ∧ (load_column "Phone" ["", "abc"])[1]? = some (PdValue.str "abc"))
    ∧ (string_cols.contains "Category" = false
      ∧ load_column "Category" ["", "abc"]
          = (read_csv_column ["", "abc"]).map fillna) :=
  ⟨⟨rfl, by decide,
    (c8_amended_load "Phone" ["", "abc"]).2.1 0 "" rfl (by decide)⟩,
   ⟨by decide, by decide,
    (c8_amended_load "Phone" ["", "abc"]).2.2.2.2 (by decide) 1 "abc" rfl
      (by decide)⟩,
   ⟨by decide,
    (c8_amended_load "Category" ["", "abc"]).2.2.2.1 (by decide)⟩⟩

/-- C9 (counterexample).  On a dataset with no `Category` column, an active
category selection does not exclude every record as the claim states: the
filter stage is skipped entirely and all records are kept. -/
theorem c9_counterexample_missing_category_keeps_all :
    dfNoCat.cols.contains "Category" = false
    ∧ (df_filtered dfNoCat "" ["Health"] []).rows = dfNoCat.rows
    ∧ dfNoCat.rows ≠ [] := by
  refine ⟨by decide, by decide, by decide⟩

/-- C9 (amended).  The filter never fails on a dataset lacking a
searchable or filterable attribute: a predicate over an entirely absent
attribute is skipped (treated as inactive, all records passing it), rather
than matching no record. -/
theorem c9_amended_missing_column_skips (df : DataFrame) (t : String)
    (cs ks : List String) :
    (df.cols.contains "Category" = false →
      df_filtered df t cs ks = df_filtered df t [] ks)
    ∧ (df.cols.contains "Country" = false →
      df_filtered df t cs ks = df_filtered df t cs [])
    ∧ (search_cols df = [] →
      df_filtered df t cs ks = df_filtered df "" cs ks) := by
  refine ⟨?_, ?_, ?_⟩
  · intro h
    unfold df_filtered
    have hskip : causeFilter (textFilter df t) cs = textFilter df t := by
      unfold causeFilter
      rw [if_neg]
      intro hc
      rw [textFilter_cols, h] at hc
      cases hc.2
    have hempty : causeFilter (textFilter df t) [] = textFilter df t := by
      unfold causeFilter
      rw [if_neg]
      intro hc
      exact hc.1 rfl
    rw [hskip, hempty]
  · intro h
    unfold df_filtered
    have hcols : (causeFilter (textFilter df t) cs).cols = df.cols := by
      rw [causeFilter_cols, textFilter_cols]
    have hskip : countryFilter (causeFilter (textFilter df t) cs) ks
        = causeFilter (textFilter df t) cs := by
      unfold countryFilter
      rw [if_neg]
      intro hc
      rw [hcols, h] at hc
      cases hc.2
    have hempty : countryFilter (causeFilter (textFilter df t) cs) []
        = causeFilter (textFilter df t) cs := by
      unfold countryFilter
      rw [if_neg]
      intro hc
      exact hc.1 rfl
    rw [hskip, hempty]
  · intro h
    unfold df_filtered
    have hskip : textFilter df t = df := by
      unfold textFilter
      rw [if_neg]
      intro hc
      exact hc.2 h
    have hempty : textFilter df "" = df := by
      unfold textFilter
      rw [if_neg]
      intro hc
      exact hc.1 rfl
    rw [hskip, hempty]

/-- Witness for C9 (amended) on a dataset having only an `Email` column:
the category selection and the free-text term are both skipped. -/
theorem c9_amended_missing_column_skips_witness :
    (dfNoCat.cols.contains "Category" = false
      ∧ df_filtered dfNoCat "water" ["Health"] ["France"]
          = df_filtered dfNoCat "water" [] ["France"])
    ∧ (search_cols dfNoCat = []
      ∧ df_filtered dfNoCat "water" ["Health"] ["France"]
          = df_filtered dfNoCat "" ["Health"] ["France"]) :=
  ⟨⟨by decide,
    (c9_amended_missing_column_skips dfNoCat "water" ["Health"] ["France"]).1
      (by decide)⟩,
   ⟨by decide,
    (c9_amended_missing_column_skips dfNoCat "water" ["Health"] ["France"]).2.2
      (by decide)⟩⟩

end CharityApp
